import Mathlib

/-!
Verification development for the rancher-release-bot release-intelligence
pipeline (src/ai_analyzer.py, src/database.py, src/integrations.py,
src/slack_bot.py, src/main.py).

Python dictionaries and JSON values are modelled by the `Json` inductive
below.  Operations that can raise a Python exception are modelled as
`Except String`, the string being the exception message (messages are kept
short and apostrophe-free; only their presence matters for the theorems).
The external collaborators (the Gemini completion call, the chat-platform
post, the ticketing HTTP calls) are modelled as explicit outcome parameters,
so each pipeline function is a pure function of its inputs and of the
collaborator outcomes.
-/

/-- JSON values as handled by the json module.  Numbers are restricted to
integers: the pipeline never computes with fractional values, and the
parser model below rejects float literals (a documented restriction of the
embedding, irrelevant to every claim). -/
inductive Json where
  | null
  | bool (b : Bool)
  | num (n : Int)
  | str (s : String)
  | arr (elems : List Json)
  | obj (entries : List (String × Json))

/-- Opening brace character, kept out of string and char literals. -/
def lCurly : Char := Char.ofNat 123

/-- Closing brace character, kept out of string and char literals. -/
def rCurly : Char := Char.ofNat 125

/-- Lookup in an object, first match.  Objects produced by the parser and by
the pipeline have unique keys (the parser deduplicates like a Python dict),
so first match agrees with Python dict lookup. -/
def dictGetD (kvs : List (String × Json)) (k : String) (dflt : Json) : Json :=
  match kvs.find? (fun p => p.1 == k) with
  | some p => p.2
  | none => dflt

/-- Python dict.get(k, dflt): raises AttributeError on non-dict values. -/
def pyGet (j : Json) (k : String) (dflt : Json) : Except String Json :=
  match j with
  | .obj kvs => .ok (dictGetD kvs k dflt)
  | _ => .error "AttributeError: object has no attribute get"

/-- Python subscript d[k]: KeyError when the key is absent, TypeError on
values that are not dicts. -/
def pyIndex (j : Json) (k : String) : Except String Json :=
  match j with
  | .obj kvs =>
    match kvs.find? (fun p => p.1 == k) with
    | some p => .ok p.2
    | none => .error ("KeyError: " ++ k)
  | _ => .error "TypeError: value is not subscriptable"

/-- Insert or update a key like Python dict assignment: an existing key keeps
its position and gets the new value, a new key is appended. -/
def insertKV : List (String × Json) → String → Json → List (String × Json)
  | [], k, v => [(k, v)]
  | p :: rest, k, v =>
    if p.1 == k then (k, v) :: rest else p :: insertKV rest k v

/-- Python item assignment d[k] = v: TypeError on non-dict values. -/
def pySetItem (j : Json) (k : String) (v : Json) : Except String Json :=
  match j with
  | .obj kvs => .ok (.obj (insertKV kvs k v))
  | _ => .error "TypeError: value does not support item assignment"

/-- Python truthiness of a JSON value. -/
def pyTruthy : Json → Bool
  | .null => false
  | .bool b => b
  | .num n => n != 0
  | .str s => !s.isEmpty
  | .arr l => !l.isEmpty
  | .obj l => !l.isEmpty

/-- Python slice v[:n] as a value: works on lists and strings, TypeError
otherwise. -/
def pySliceVal (j : Json) (n : Nat) : Except String Json :=
  match j with
  | .arr l => .ok (.arr (l.take n))
  | .str s => .ok (.str (String.mk (s.toList.take n)))
  | _ => .error "TypeError: value is not subscriptable"

/-- Python iteration over a value: lists yield elements, strings yield
one-character strings, dicts yield their keys, anything else raises. -/
def pyIter (j : Json) : Except String (List Json) :=
  match j with
  | .arr l => .ok l
  | .str s => .ok (s.toList.map (fun c => Json.str (String.mk [c])))
  | .obj kvs => .ok (kvs.map (fun p => Json.str p.1))
  | _ => .error "TypeError: value is not iterable"

/-- Python iteration over a slice v[:n], the shape used by every loop in the
sources. -/
def pySliceIter (j : Json) (n : Nat) : Except String (List Json) := do
  let v ← pySliceVal j n
  pyIter v

/-- Python len(v): defined on lists, strings and dicts. -/
def pyLen (j : Json) : Except String Nat :=
  match j with
  | .arr l => .ok l.length
  | .str s => .ok s.length
  | .obj l => .ok l.length
  | _ => .error "TypeError: value has no len"

mutual

/-- Python str() of a value, as used by f-string interpolation. -/
def pyToString : Json → String
  | .null => "None"
  | .bool true => "True"
  | .bool false => "False"
  | .num n => toString n
  | .str s => s
  | .arr l => "[" ++ pyElemsString l ++ "]"
  | .obj kvs => String.mk [lCurly] ++ pyEntriesString kvs ++ String.mk [rCurly]

/-- Comma-separated repr of list elements. -/
def pyElemsString : List Json → String
  | [] => ""
  | [x] => pyReprString x
  | x :: xs => pyReprString x ++ ", " ++ pyElemsString xs

/-- Comma-separated repr of dict entries. -/
def pyEntriesString : List (String × Json) → String
  | [] => ""
  | [(k, v)] => "\x27" ++ k ++ "\x27: " ++ pyReprString v
  | (k, v) :: rest => "\x27" ++ k ++ "\x27: " ++ pyReprString v ++ ", " ++ pyEntriesString rest

/-- Python repr() of a value (strings quoted), used for container elements. -/
def pyReprString : Json → String
  | .str s => "\x27" ++ s ++ "\x27"
  | .null => "None"
  | .bool true => "True"
  | .bool false => "False"
  | .num n => toString n
  | .arr l => "[" ++ pyElemsString l ++ "]"
  | .obj kvs => String.mk [lCurly] ++ pyEntriesString kvs ++ String.mk [rCurly]

end

/-- Python str.upper restricted to ASCII, sufficient for the sources. -/
def pyUpperStr (s : String) : String := String.mk (s.toList.map Char.toUpper)

/-- Python str.title restricted to ASCII: uppercase a letter that follows a
non-letter, lowercase the other letters. -/
def pyTitleStr (s : String) : String :=
  let step : Bool × List Char → Char → Bool × List Char := fun st c =>
    let out := if c.isAlpha then (if st.1 then c.toLower else c.toUpper) else c
    (c.isAlpha, out :: st.2)
  String.mk ((s.toList.foldl step (false, [])).2.reverse)

/-- Python value.upper(): AttributeError on non-strings. -/
def pyUpperJ (j : Json) : Except String String :=
  match j with
  | .str s => .ok (pyUpperStr s)
  | _ => .error "AttributeError: value has no attribute upper"

/-- Python value.title(): AttributeError on non-strings. -/
def pyTitleJ (j : Json) : Except String String :=
  match j with
  | .str s => .ok (pyTitleStr s)
  | _ => .error "AttributeError: value has no attribute title"

/-- Element check of str.join: every joined element must be a string. -/
def strItem (j : Json) : Except String String :=
  match j with
  | .str s => .ok s
  | _ => .error "TypeError: join expected str instance"

/-- Python sep.join(values): every element must be a string. -/
def pyJoin (sep : String) (l : List Json) : Except String String :=
  match l.mapM strItem with
  | .ok ss => .ok (String.intercalate sep ss)
  | .error e => .error e

/-- Test for a specific string value, Python value == "literal". -/
def isStr (j : Json) (s : String) : Bool :=
  match j with
  | .str t => t == s
  | _ => false

/-! ## The json.loads model

A recursive-descent parser for the JSON fragment the pipeline relies on,
faithful to json.loads: optional surrounding whitespace, full consumption
required (trailing data is an error), objects deduplicate keys last-wins in
first position like a Python dict.  Error values form the small inductive
`JErr`; their rendered messages stand in for the JSONDecodeError text. -/

/-- Parse errors of the json.loads model. -/
inductive JErr where
  | expectingValue
  | extraData
  | unterminatedString
  | invalidEscape
  | expectingColon
  | expectingKey
  | expectingCommaOrBracket
  | expectingCommaOrBrace
  | floatUnsupported
  | depthExceeded
deriving DecidableEq

/-- Rendered message of a parse error, standing in for str(JSONDecodeError).
Every message is non-empty. -/
def jerrStr : JErr → String
  | .expectingValue => "Expecting value"
  | .extraData => "Extra data"
  | .unterminatedString => "Unterminated string"
  | .invalidEscape => "Invalid escape"
  | .expectingColon => "Expecting colon delimiter"
  | .expectingKey => "Expecting property name enclosed in double quotes"
  | .expectingCommaOrBracket => "Expecting comma delimiter in array"
  | .expectingCommaOrBrace => "Expecting comma delimiter in object"
  | .floatUnsupported => "float literals are outside the integer model"
  | .depthExceeded => "recursion depth exceeded"

/-- JSON whitespace test by code point: space, tab, line feed, carriage
return. -/
def jsonWs (c : Char) : Bool :=
  c.toNat == 32 || c.toNat == 9 || c.toNat == 10 || c.toNat == 13

/-- Skip JSON whitespace. -/
def skipWs : List Char → List Char
  | [] => []
  | c :: rest => if jsonWs c then skipWs rest else c :: rest

/-- Hex digit value by code point (48-57 digits, 97-102 lower, 65-70
upper). -/
def hexDigitVal (c : Char) : Option Nat :=
  let n := c.toNat
  if 48 ≤ n && n ≤ 57 then some (n - 48)
  else if 97 ≤ n && n ≤ 102 then some (n - 87)
  else if 65 ≤ n && n ≤ 70 then some (n - 55)
  else none

/-- Body of a JSON string literal after the opening quote; returns the string
and the rest of the input after the closing quote. -/
def parseStringBody : List Char → List Char → Except JErr (String × List Char)
  | _, [] => .error .unterminatedString
  | acc, '"' :: rest => .ok (String.mk acc.reverse, rest)
  | acc, '\\' :: '"' :: rest => parseStringBody ('"' :: acc) rest
  | acc, '\\' :: '\\' :: rest => parseStringBody ('\\' :: acc) rest
  | acc, '\\' :: '/' :: rest => parseStringBody ('/' :: acc) rest
  | acc, '\\' :: 'b' :: rest => parseStringBody (Char.ofNat 8 :: acc) rest
  | acc, '\\' :: 'f' :: rest => parseStringBody (Char.ofNat 12 :: acc) rest
  | acc, '\\' :: 'n' :: rest => parseStringBody ('\n' :: acc) rest
  | acc, '\\' :: 'r' :: rest => parseStringBody ('\r' :: acc) rest
  | acc, '\\' :: 't' :: rest => parseStringBody ('\t' :: acc) rest
  | acc, '\\' :: 'u' :: h1 :: h2 :: h3 :: h4 :: rest =>
    match hexDigitVal h1, hexDigitVal h2, hexDigitVal h3, hexDigitVal h4 with
    | some a, some b, some c, some d =>
      parseStringBody (Char.ofNat (d + 16 * (c + 16 * (b + 16 * a))) :: acc) rest
    | _, _, _, _ => .error .invalidEscape
  | _, '\\' :: _ => .error .invalidEscape
  | acc, c :: rest => parseStringBody (c :: acc) rest

/-- Accumulator worker turning decimal digits into a natural number. -/
def digitsAcc : List Char → Nat → Nat
  | [], acc => acc
  | d :: ds, acc => digitsAcc ds (acc * 10 + (d.toNat - 48))

/-- Digits to a natural number. -/
def digitsToNat (ds : List Char) : Nat := digitsAcc ds 0

/-- JSON number literal (integers only, see the `Json` doc comment). -/
def parseNumber (cs : List Char) : Except JErr (Json × List Char) :=
  let neg := match cs with
    | c :: _ => c == '-'
    | [] => false
  let cs1 := if neg then cs.drop 1 else cs
  let ds := cs1.takeWhile Char.isDigit
  let rest := cs1.dropWhile Char.isDigit
  if ds.isEmpty then .error .expectingValue
  else
    match rest with
    | '.' :: _ => .error .floatUnsupported
    | 'e' :: _ => .error .floatUnsupported
    | 'E' :: _ => .error .floatUnsupported
    | _ =>
      let mag : Int := Int.ofNat (digitsToNat ds)
      .ok (.num (if neg then -mag else mag), rest)

mutual

/-- JSON value, fuelled recursive descent. -/
def parseValue : Nat → List Char → Except JErr (Json × List Char)
  | 0, _ => .error .depthExceeded
  | fuel + 1, cs0 =>
    match skipWs cs0 with
    | [] => .error .expectingValue
    | c :: rest =>
      if c == '"' then do
        let (s, r) ← parseStringBody [] rest
        .ok (.str s, r)
      else if c == lCurly then
        match skipWs rest with
        | c2 :: r2 =>
          if c2 == rCurly then .ok (.obj [], r2)
          else parseMembers fuel [] (c2 :: r2)
        | [] => .error .expectingKey
      else if c == '[' then
        match skipWs rest with
        | c2 :: r2 =>
          if c2 == ']' then .ok (.arr [], r2)
          else parseElems fuel [] (c2 :: r2)
        | [] => .error .expectingValue
      else if c == 't' then
        match rest with
        | 'r' :: 'u' :: 'e' :: r => .ok (.bool true, r)
        | _ => .error .expectingValue
      else if c == 'f' then
        match rest with
        | 'a' :: 'l' :: 's' :: 'e' :: r => .ok (.bool false, r)
        | _ => .error .expectingValue
      else if c == 'n' then
        match rest with
        | 'u' :: 'l' :: 'l' :: r => .ok (.null, r)
        | _ => .error .expectingValue
      else parseNumber (c :: rest)

/-- Object members after the opening brace (non-empty case). -/
def parseMembers : Nat → List (String × Json) → List Char →
    Except JErr (Json × List Char)
  | 0, _, _ => .error .depthExceeded
  | fuel + 1, acc, cs =>
    match skipWs cs with
    | [] => .error .expectingKey
    | c :: rest =>
      if c == '"' then do
        let (k, r1) ← parseStringBody [] rest
        match skipWs r1 with
        | c2 :: r2 =>
          if c2 == ':' then do
            let (v, r3) ← parseValue fuel r2
            let acc2 := insertKV acc k v
            match skipWs r3 with
            | c3 :: r4 =>
              if c3 == ',' then parseMembers fuel acc2 r4
              else if c3 == rCurly then .ok (.obj acc2, r4)
              else .error .expectingCommaOrBrace
            | [] => .error .expectingCommaOrBrace
          else .error .expectingColon
        | [] => .error .expectingColon
      else .error .expectingKey

/-- Array elements after the opening bracket (non-empty case). -/
def parseElems : Nat → List Json → List Char → Except JErr (Json × List Char)
  | 0, _, _ => .error .depthExceeded
  | fuel + 1, acc, cs => do
    let (v, r) ← parseValue fuel cs
    match skipWs r with
    | c :: r2 =>
      if c == ',' then parseElems fuel (v :: acc) r2
      else if c == ']' then .ok (.arr (v :: acc).reverse, r2)
      else .error .expectingCommaOrBracket
    | [] => .error .expectingCommaOrBracket

end

/-- Model of json.loads: parse one value and require only whitespace after
it, as Python does (trailing data raises). -/
def json_loads (s : String) : Except JErr Json :=
  match parseValue (s.length + 1) s.toList with
  | .error e => .error e
  | .ok (v, rest) =>
    if (skipWs rest).isEmpty then .ok v else .error .extraData

/-! ## AIAnalyzer._parse_json_response -/

/-- Remove the non-overlapping occurrences of a literal, each together with
one directly following newline, scanning left to right; this is re.sub of
the literal followed by an optional newline. -/
def startsWithList : List Char → List Char → Bool
  | [], _ => true
  | _ :: _, [] => false
  | p :: ps, c :: cs => p == c && startsWithList ps cs

/-- Fuelled worker for `reSubstitute`. -/
def subLit (lit : List Char) : Nat → List Char → List Char
  | 0, cs => cs
  | fuel + 1, cs =>
    match cs with
    | [] => []
    | c :: rest =>
      if startsWithList lit cs then
        match cs.drop lit.length with
        | '\n' :: r2 => subLit lit fuel r2
        | r2 => subLit lit fuel r2
      else c :: subLit lit fuel rest

/-- re.sub of a literal pattern plus optional trailing newline with the
empty replacement. -/
def reSubstitute (lit : String) (s : String) : String :=
  String.mk (subLit lit.toList (s.toList.length + 1) s.toList)

/-- Python whitespace for str.strip: space, tab, newline, carriage return,
vertical tab, form feed. -/
def isPySpace (c : Char) : Bool :=
  c.toNat == 32 || (9 ≤ c.toNat && c.toNat ≤ 13)

/-- Python str.strip with no argument. -/
def pyStrip (s : String) : String :=
  String.mk (((s.toList.dropWhile isPySpace).reverse.dropWhile isPySpace).reverse)

/-- The cleanup phase of _parse_json_response: strip, drop Markdown fences
(the literal backtick-backtick-backtick-json and bare triple-backtick
markers, each with an optional following newline), strip again. -/
def cleanup (text : String) : String :=
  pyStrip (reSubstitute "```" (reSubstitute "```json" (pyStrip text)))

/-- Index of the last closing brace of the text, text.rfind of the closing
brace character. -/
def rfindBrace : List Char → Option Nat
  | [] => none
  | c :: cs =>
    match rfindBrace cs with
    | some i => some (i + 1)
    | none => if c == rCurly then some 0 else none

/-- Python text.endswith with the closing-brace character. -/
def endsWithBrace (t : String) : Bool :=
  match t.toList.reverse with
  | [] => false
  | c :: _ => c == rCurly

/-- The repair phase of _parse_json_response: when the cleaned text does not
end with a closing brace and the last closing brace sits at a positive
index, truncate just after it; otherwise leave the text unchanged (the
source only truncates when last_brace > 0). -/
def repair_text (t : String) : String :=
  if endsWithBrace t then t
  else
    match rfindBrace t.toList with
    | some i => if 0 < i then String.mk (t.toList.take (i + 1)) else t
    | none => t

/-- Entries of the minimal fallback structure returned by
_parse_json_response when the response cannot be parsed even after repair;
the error field carries the message of the original parse failure. -/
def parse_fallback_entries (e : String) : List (String × Json) :=
  [("version", .str "unknown"),
        ("release_type", .str "unknown"),
        ("severity", .str "normal"),
        ("summary", .str "Failed to parse analysis. Please check logs."),
        ("new_features", .arr []),
        ("bug_fixes", .arr []),
        ("breaking_changes", .arr []),
        ("security_updates", .arr []),
        ("recommended_actions", .arr [.str "Review release manually"]),
        ("upgrade_notes", .obj [("prerequisites", .arr []),
                                ("known_issues", .arr []),
                                ("estimated_downtime", .str "Unknown")]),
        ("error", .str e)]

/-- The fallback structure as a JSON object. -/
def parse_fallback (e : String) : Json := .obj (parse_fallback_entries e)

/-- AIAnalyzer._parse_json_response: clean the text, attempt a direct parse,
on failure retry on the repaired text, and fall back to `parse_fallback`
carrying the original error.  Total: never raises. -/
def parse_json_response (text : String) : Json :=
  let t := cleanup text
  match json_loads t with
  | .ok a => a
  | .error e =>
    match json_loads (repair_text t) with
    | .ok a => a
    | .error _ => parse_fallback (jerrStr e)

/-! ## AIAnalyzer: error response, prompts, resources, analyze, compare -/

/-- AIAnalyzer._create_error_response, transcribed field by field. -/
def create_error_response (version error : String) : Json :=
  .obj [("version", .str version),
        ("error", .str error),
        ("summary", .str "Analysis failed due to error"),
        ("severity", .str "unknown"),
        ("release_type", .str "unknown"),
        ("new_features", .arr []),
        ("bug_fixes", .arr []),
        ("breaking_changes", .arr []),
        ("security_updates", .arr []),
        ("recommended_actions", .arr [.str "Check logs for error details",
                                      .str "Review release manually"]),
        ("upgrade_notes", .obj [("prerequisites", .arr []),
                                ("known_issues", .arr []),
                                ("estimated_downtime", .str "Unknown")]),
        ("resources", .obj [("documentation", .arr []),
                            ("kb_articles", .arr []),
                            ("videos", .arr [])])]

/-- Section of the analysis prompt: the text truncated to n characters when
truthy, the placeholder otherwise. -/
def promptPart (s : String) (n : Nat) : String :=
  if s.isEmpty then "Not available" else String.mk (s.toList.take n)

/-- AIAnalyzer._build_analysis_prompt.  The requested JSON schema is
transcribed with its braces escaped; the prompt text is only consumed by the
completion-call oracle and never inspected by a theorem. -/
def build_analysis_prompt (version notes build_yaml _changelog : String) : String :=
  "You are a DevOps analyst. Analyze Rancher release " ++ version ++ ".\n\n" ++
  "RELEASE NOTES:\n" ++ promptPart notes 2500 ++ "\n\n" ++
  "BUILD CONFIG:\n" ++ promptPart build_yaml 800 ++ "\n\n" ++
  "Return ONLY valid JSON (no markdown, no extra text):\n\n" ++
  "\x7b\n  \"version\": \"" ++ version ++ "\",\n" ++
  "  \"release_type\": \"major|minor|patch\",\n" ++
  "  \"severity\": \"critical|important|normal|low\",\n" ++
  "  \"summary\": \"2-3 sentence overview in simple terms\",\n" ++
  "  \"new_features\": [ \x7b \"title\": \"Feature name\", \"description\": \"Simple explanation (max 150 chars)\", \"impact\": \"How this affects deployments\" \x7d ],\n" ++
  "  \"bug_fixes\": [ \x7b \"issue\": \"What was fixed\", \"severity\": \"critical|high|medium|low\", \"description\": \"Impact and resolution\" \x7d ],\n" ++
  "  \"breaking_changes\": [ \x7b \"change\": \"What changed\", \"impact\": \"Who is affected\", \"migration_steps\": \"How to adapt\" \x7d ],\n" ++
  "  \"security_updates\": [ \x7b \"severity\": \"critical|high|medium|low\", \"description\": \"What was fixed\", \"recommendation\": \"Action required\" \x7d ],\n" ++
  "  \"recommended_actions\": [ \"Action 1\", \"Action 2\", \"Action 3\" ],\n" ++
  "  \"upgrade_notes\": \x7b \"prerequisites\": [\"What to check before upgrading\"], \"known_issues\": [\"List of known issues\"], \"estimated_downtime\": \"Expected downtime\" \x7d\n\x7d\n\n" ++
  "Keep descriptions concise. Include top 5 items per category. Respond with valid JSON only."

/-- The prompt-seeding phase of AIAnalyzer._find_resources: the first three
feature titles joined with a comma (the literal general when the sliced list
is empty).  Raises like the comprehension does when new_features is not
sliceable, an entry has no get, or a title is not joinable. -/
def seedFeatures (analysis : Json) : Except String String := do
  let nf ← pyGet analysis "new_features" (Json.arr [])
  let items ← pySliceIter nf 3
  let titles ← items.mapM (fun f => pyGet f "title" (Json.str ""))
  if titles.isEmpty then pure "general" else pyJoin ", " titles

/-- The resource-lookup prompt of AIAnalyzer._find_resources. -/
def find_resources_prompt (version featuresStr : String) : String :=
  "Find resources for Rancher " ++ version ++ " focusing on: " ++ featuresStr ++
  "\n\nReturn ONLY valid JSON:\n\x7b\n" ++
  "  \"documentation\": [ \x7b\"title\": \"Doc title\", \"url\": \"https://...\", \"description\": \"Brief\"\x7d ],\n" ++
  "  \"kb_articles\": [ \x7b\"title\": \"Article title\", \"url\": \"https://...\", \"summary\": \"Brief\"\x7d ],\n" ++
  "  \"videos\": [ \x7b\"title\": \"Video title\", \"url\": \"https://youtube.com/...\", \"channel\": \"Channel name\"\x7d ]\n\x7d\n\n" ++
  "Include top 3 items per category. Valid JSON only."

/-- The empty resource structure returned by the except branch of
AIAnalyzer._find_resources. -/
def resources_empty : Json :=
  .obj [("documentation", .arr []), ("kb_articles", .arr []), ("videos", .arr [])]

/-- AIAnalyzer._find_resources.  The prompt seeding runs outside the try
block, so its exceptions propagate; everything from the completion call to
the doc and video counts runs inside the try block, so any failure there
yields the empty resource lists. -/
def find_resources (version : String) (analysis : Json)
    (gen : Except String String) : Except String Json := do
  let featuresStr ← seedFeatures analysis
  let _ := find_resources_prompt version featuresStr
  pure (match gen with
    | .error _ => resources_empty
    | .ok text =>
      let resources := parse_json_response text
      match (do
        let d ← pyGet resources "documentation" (Json.arr [])
        let _ ← pyLen d
        let v ← pyGet resources "videos" (Json.arr [])
        let _ ← pyLen v
        Except.ok ()) with
      | .ok _ => resources
      | .error _ => resources_empty)

/-- Upstream release payload.  The collaborator contract guarantees the
fields (the source reads tag_name by direct index and the other fields by
get with an empty-string default). -/
structure Release where
  tag_name : String
  body : String
  build_yaml : String
  changelog : String

/-- AIAnalyzer.analyze_release.  The completion call and the response
parsing sit inside one try block together with the resource lookup and the
resources assignment; any exception among them is caught and turned into
the canonical error response.  The function itself is total: it never
raises. -/
def analyze_release (release : Release) (genA genR : Except String String) : Json :=
  let version := release.tag_name
  let _ := build_analysis_prompt version release.body release.build_yaml release.changelog
  match genA with
  | .error e => create_error_response version e
  | .ok text =>
    let analysis := parse_json_response text
    match (do
      let r ← find_resources version analysis genR
      pySetItem analysis "resources" r) with
    | .ok a => a
    | .error e => create_error_response version e

/-! ## Database (src/database.py) -/

/-- One row of the releases table.  The json.dumps and json.loads layer of
store_release and get_release is modelled as the identity embedding of
`Json` values, since serialising a JSON-native value and parsing it back is
the identity. -/
structure ReleaseRecord where
  version : String
  release_data : Json
  analysis : Json
  created_at : Nat
  updated_at : Nat

/-- Database state: the releases table and the notifications log. -/
structure DbState where
  releases : List ReleaseRecord
  notifications : List (String × String)

/-- Database.store_release: INSERT OR REPLACE on the version primary key
deletes any conflicting row and inserts the new one; created_at takes the
column default (the current time) because it is not among the inserted
columns. -/
def store_release (st : DbState) (version : String) (release_data analysis : Json)
    (now : Nat) : DbState :=
  { st with releases :=
      (st.releases.filter (fun r => r.version != version)) ++
      [⟨version, release_data, analysis, now, now⟩] }

/-- Database.get_release: the row for the version, or none. -/
def get_release (st : DbState) (version : String) : Option ReleaseRecord :=
  st.releases.find? (fun r => r.version == version)

/-- Database.record_notification: append-only insert. -/
def record_notification (st : DbState) (version channel : String) : DbState :=
  { st with notifications := st.notifications ++ [(version, channel)] }

/-! ## AIAnalyzer.compare_versions -/

/-- The comparison prompt.  Built outside the try block, so a malformed
stored analysis makes the building raise. -/
def compare_prompt (v1 v2 : String) (analysis1 analysis2 : Json) :
    Except String String := do
  let s1 ← pyGet analysis1 "summary" (Json.str "N/A")
  let s1t ← pySliceVal s1 200
  let f1 ← pyGet analysis1 "new_features" (Json.arr [])
  let n1 ← pyLen f1
  let sev1 ← pyGet analysis1 "severity" (Json.str "unknown")
  let s2 ← pyGet analysis2 "summary" (Json.str "N/A")
  let s2t ← pySliceVal s2 200
  let f2 ← pyGet analysis2 "new_features" (Json.arr [])
  let n2 ← pyLen f2
  let sev2 ← pyGet analysis2 "severity" (Json.str "unknown")
  Except.ok ("Compare Rancher " ++ v1 ++ " vs " ++ v2 ++ ".\n\n" ++
    "VERSION " ++ v1 ++ ":\nSummary: " ++ pyToString s1t ++
    "\nFeatures: " ++ toString n1 ++ "\nSeverity: " ++ pyToString sev1 ++ "\n\n" ++
    "VERSION " ++ v2 ++ ":\nSummary: " ++ pyToString s2t ++
    "\nFeatures: " ++ toString n2 ++ "\nSeverity: " ++ pyToString sev2 ++ "\n\n" ++
    "Return ONLY valid JSON:\n\x7b \"summary\": \"Brief comparison overview (2-3 sentences)\", \"major_changes\": [\"Change 1\", \"Change 2\", \"Change 3\"], \"upgrade_complexity\": \"easy|moderate|complex\", \"recommended_path\": \"Direct upgrade or step-by-step\", \"migration_time\": \"Estimated time\", \"breaking_changes_count\": 0, \"risk_level\": \"low|medium|high\" \x7d")

/-- Python comma-space join over a list of strings. -/
def joinComma : List String → String
  | [] => ""
  | [x] => x
  | x :: rest => x ++ ", " ++ joinComma rest

/-- AIAnalyzer.compare_versions.  The boolean of the result records whether
the completion service was invoked (the try block was entered).  When either
version is absent the function returns the error object naming every missing
version and never reaches the prompt or the completion call. -/
def compare_versions (st : DbState) (v1 v2 : String)
    (gen : Except String String) : Except String (Json × Bool) :=
  match get_release st v1, get_release st v2 with
  | some r1, some r2 => do
    let _ ← compare_prompt v1 v2 r1.analysis r2.analysis
    Except.ok (match gen with
      | .error e =>
        (Json.obj [("error", .str e),
                   ("summary", .str "Failed to generate comparison")], true)
      | .ok text => (parse_json_response text, true))
  | o1, o2 =>
    let missing := (if o1.isNone then [v1] else []) ++ (if o2.isNone then [v2] else [])
    .ok (.obj [("error", .str ("Version(s) not found: " ++ joinComma missing)),
               ("summary", .str "Cannot compare - versions not in database")], false)

/-! ## IntegrationManager (src/integrations.py) -/

/-- Jira configuration (config values are plain strings by contract). -/
structure JiraConfig where
  enabled : Bool
  url : String
  email : String
  api_token : String
  project_key : String

/-- ServiceNow configuration. -/
structure SnowConfig where
  enabled : Bool
  instance_name : String
  username : String
  password : String

/-- The integrations section of the configuration. -/
structure IntegrationsConfig where
  jira : JiraConfig
  servicenow : SnowConfig

/-- IntegrationManager._get_jira_priority (leading underscore dropped):
fixed severity to Jira priority table with Medium as the default. -/
def get_jira_priority (severity : String) : String :=
  if severity == "critical" then "Highest"
  else if severity == "important" then "High"
  else if severity == "normal" then "Medium"
  else if severity == "low" then "Low"
  else "Medium"

/-- IntegrationManager._get_snow_urgency: fixed severity to ServiceNow
urgency code table; the source comments read 1 High, 2 Medium, 3 Low, and
the default is 3. -/
def get_snow_urgency (severity : String) : String :=
  if severity == "critical" then "1"
  else if severity == "important" then "2"
  else if severity == "normal" then "3"
  else if severity == "low" then "3"
  else "3"

/-- IntegrationManager._get_snow_impact: fixed severity to ServiceNow impact
code table; the source comments read 1 High, 2 Medium, 3 Low, and the
default is 3. -/
def get_snow_impact (severity : String) : String :=
  if severity == "critical" then "1"
  else if severity == "important" then "2"
  else if severity == "normal" then "3"
  else if severity == "low" then "3"
  else "3"

/-- Severity read for the vendor lookup tables, dict.get with a string
default.  By the time the source reaches these lookups the shared ticket
body has already been built, which forces the stored severity to be a
string, so the non-string arm is unreachable there. -/
def pyGetStrOr (analysis : Json) (k dflt : String) : Except String String := do
  let v ← pyGet analysis k (Json.str dflt)
  match v with
  | .str s => Except.ok s
  | _ => Except.error "TypeError: non-string severity"

/-- Numbered feature lines of the ticket description, enumerate starting
at 1; the title is a direct subscript and raises when absent. -/
def descFeatures : Nat → List Json → Except String String
  | _, [] => .ok ""
  | i, f :: rest => do
    let t ← pyIndex f "title"
    let d ← pyGet f "description" (Json.str "")
    let r ← descFeatures (i + 1) rest
    .ok ("\n" ++ toString i ++ ". " ++ pyToString t ++ "\n   " ++ pyToString d ++ "\n" ++ r)

/-- Breaking-change lines; the change text is a direct subscript. -/
def descBreaking : List Json → Except String String
  | [] => .ok ""
  | c :: rest => do
    let ch ← pyIndex c "change"
    let im ← pyGet c "impact" (Json.str "N/A")
    let r ← descBreaking rest
    .ok ("\n- " ++ pyToString ch ++ "\n  Impact: " ++ pyToString im ++ "\n" ++ r)

/-- Security-update lines. -/
def descSecurity : List Json → Except String String
  | [] => .ok ""
  | s :: rest => do
    let d ← pyGet s "description" (Json.str "N/A")
    let r ← descSecurity rest
    .ok ("\n- " ++ pyToString d ++ "\n" ++ r)

/-- Recommended-action lines, enumerate starting at 1 (pure). -/
def descActions : Nat → List Json → String
  | _, [] => ""
  | i, a :: rest => toString i ++ ". " ++ pyToString a ++ "\n" ++ descActions (i + 1) rest

/-- Known-issue lines (pure). -/
def descIssues : List Json → String
  | [] => ""
  | x :: rest => "- " ++ pyToString x ++ "\n" ++ descIssues rest

/-- IntegrationManager._build_ticket_description, transcribed section by
section; `now` stands for the formatted datetime.now() of the footer. -/
def build_ticket_description (version : String) (analysis : Json) (now : String) :
    Except String String := do
  let sevJ ← pyGet analysis "severity" (Json.str "Normal")
  let sevU ← pyUpperJ sevJ
  let rtJ ← pyGet analysis "release_type" (Json.str "Unknown")
  let rtT ← pyTitleJ rtJ
  let sumJ ← pyGet analysis "summary" (Json.str "No summary available")
  let head := "Rancher " ++ version ++ " has been released.\n\n" ++
    "SEVERITY: " ++ sevU ++ "\nTYPE: " ++ rtT ++ "\n\nSUMMARY:\n" ++
    pyToString sumJ ++ "\n\nNEW FEATURES:\n"
  let features ← pyGet analysis "new_features" (Json.arr [])
  let feats ← pySliceIter features 5
  let dFeat ← descFeatures 1 feats
  let breaking ← pyGet analysis "breaking_changes" (Json.arr [])
  let dBreak ← if pyTruthy breaking then do
      let bs ← pySliceIter breaking 3
      let t ← descBreaking bs
      Except.ok ("\n\nBREAKING CHANGES:\n" ++ t)
    else Except.ok ""
  let security ← pyGet analysis "security_updates" (Json.arr [])
  let dSec ← if pyTruthy security then do
      let ss ← pySliceIter security 3
      let t ← descSecurity ss
      Except.ok ("\n\nSECURITY UPDATES:\n" ++ t)
    else Except.ok ""
  let actions ← pyGet analysis "recommended_actions" (Json.arr [])
  let dAct ← if pyTruthy actions then do
      let as2 ← pySliceIter actions 5
      Except.ok ("\n\nRECOMMENDED ACTIONS:\n" ++ descActions 1 as2)
    else Except.ok ""
  let un ← pyGet analysis "upgrade_notes" (Json.obj [])
  let dUp ← if pyTruthy un then do
      let dt ← pyGet un "estimated_downtime" (Json.str "Unknown")
      let ki ← pyGet un "known_issues" (Json.arr [])
      let kiPart ← if pyTruthy ki then do
          let is3 ← pySliceIter ki 3
          Except.ok ("\nKnown Issues:\n" ++ descIssues is3)
        else Except.ok ""
      Except.ok ("\n\nUPGRADE NOTES:\nEstimated Downtime: " ++ pyToString dt ++ "\n" ++ kiPart)
    else Except.ok ""
  Except.ok (head ++ dFeat ++ dBreak ++ dSec ++ dAct ++ dUp ++
    "\n\nCreated: " ++ now ++ "\nSource: Rancher Release Bot")

/-- Outcome of one ticketing HTTP POST as seen by the caller. -/
inductive HttpOutcome where
  | resp (status : Nat) (body : Json)
  | netRaise (msg : String)

/-- One ticket-create attempt: the system, the payload it sent, and the
HTTP outcome it observed. -/
structure TicketAttempt where
  system : String
  payload : Json
  outcome : HttpOutcome

/-- The payload phase of IntegrationManager._create_jira_ticket: everything
up to and excluding the HTTP POST (summary, description and payload are all
built before the try block in the source, so exceptions here propagate). -/
def jira_payload (cfg : JiraConfig) (version : String) (analysis : Json)
    (now : String) : Except String Json := do
  let sevT ← do
    let v ← pyGet analysis "severity" (Json.str "Normal")
    pyTitleJ v
  let summary := "Rancher " ++ version ++ " - " ++ sevT ++ " Release"
  let description ← build_ticket_description version analysis now
  let sevP ← pyGetStrOr analysis "severity" "normal"
  let sevLabel ← pyGet analysis "severity" (Json.str "normal")
  Except.ok (Json.obj [("fields", Json.obj
    [("project", Json.obj [("key", .str cfg.project_key)]),
     ("summary", .str summary),
     ("description", .str description),
     ("issuetype", Json.obj [("name", .str "Task")]),
     ("priority", Json.obj [("name", .str (get_jira_priority sevP))]),
     ("labels", Json.arr [.str "rancher", .str "release", .str version, sevLabel])])])

/-- IntegrationManager._create_jira_ticket: payload phase, then one POST
attempt whose non-201 status, malformed body or network exception is caught
and logged inside the try block, never propagated. -/
def create_jira_ticket (cfg : JiraConfig) (version : String) (analysis : Json)
    (now : String) (http : HttpOutcome) : Except String TicketAttempt := do
  let p ← jira_payload cfg version analysis now
  let _ := cfg.url ++ "/rest/api/2/issue"
  Except.ok ⟨"jira", p, http⟩

/-- The payload phase of IntegrationManager._create_servicenow_ticket, again
entirely before the try block in the source. -/
def snow_payload (_cfg : SnowConfig) (version : String) (analysis : Json)
    (now : String) : Except String Json := do
  let description ← build_ticket_description version analysis now
  let sevS ← pyGetStrOr analysis "severity" "normal"
  Except.ok (Json.obj
    [("short_description", .str ("Rancher " ++ version ++ " Release - Action Required")),
     ("description", .str description),
     ("urgency", .str (get_snow_urgency sevS)),
     ("impact", .str (get_snow_impact sevS)),
     ("category", .str "Software"),
     ("subcategory", .str "Infrastructure")])

/-- IntegrationManager._create_servicenow_ticket: payload phase, then one
POST attempt whose failure modes are all absorbed by the try block. -/
def create_servicenow_ticket (cfg : SnowConfig) (version : String) (analysis : Json)
    (now : String) (http : HttpOutcome) : Except String TicketAttempt := do
  let p ← snow_payload cfg version analysis now
  let _ := "https://" ++ cfg.instance_name ++ "/api/now/table/incident"
  Except.ok ⟨"servicenow", p, http⟩

/-- IntegrationManager.create_ticket: attempts Jira first when enabled, then
ServiceNow when enabled.  Payload-phase exceptions propagate out (and a Jira
payload exception also prevents the ServiceNow attempt); HTTP failures are
absorbed inside each helper. -/
def create_ticket (cfg : IntegrationsConfig) (version : String) (analysis : Json)
    (now : String) (jiraHttp snowHttp : HttpOutcome) :
    Except String (List TicketAttempt) := do
  let a1 ← if cfg.jira.enabled then do
      let t ← create_jira_ticket cfg.jira version analysis now jiraHttp
      Except.ok [t]
    else Except.ok []
  let a2 ← if cfg.servicenow.enabled then do
      let t ← create_servicenow_ticket cfg.servicenow version analysis now snowHttp
      Except.ok [t]
    else Except.ok []
  Except.ok (a1 ++ a2)

/-! ## SlackBot (src/slack_bot.py) -/

/-- The channels section of the Slack configuration. -/
structure SlackConfig where
  channel_critical : String
  channel_releases : String
  channel_team : String

/-- Channel, emoji and message tag selected by severity at the top of
SlackBot.notify_new_release: critical goes to the critical channel,
everything else (important, normal, low, or anything at all) goes to the
releases channel. -/
def notifyRoute (cfg : SlackConfig) (severity : Json) : String × String × String :=
  if isStr severity "critical" then (cfg.channel_critical, "🚨", "CRITICAL")
  else if isStr severity "important" then (cfg.channel_releases, "⚠️", "IMPORTANT")
  else (cfg.channel_releases, "📦", "NEW RELEASE")

/-- Slack section block with mrkdwn text. -/
def sectionText (t : String) : Json :=
  .obj [("type", .str "section"),
        ("text", .obj [("type", .str "mrkdwn"), ("text", .str t)])]

/-- Slack header block with plain text. -/
def headerBlock (t : String) : Json :=
  .obj [("type", .str "header"),
        ("text", .obj [("type", .str "plain_text"), ("text", .str t)])]

/-- Slack divider block. -/
def dividerBlock : Json := .obj [("type", .str "divider")]

/-- SlackBot._format_release_blocks, transcribed section by section.  The
is_notification flag is accepted and unused, as in the source.  Direct
subscripts (feature title, bug issue, breaking change, resource url and
title) and the title() call on the severity raise on malformed analyses,
and this function is called before the try block of notify_new_release. -/
def format_release_blocks (release : Json) (_is_notification : Bool) :
    Except String Json := do
  let analysis ← pyGet release "analysis" (Json.obj [])
  let versionJ ← pyGet release "version" (Json.str "Unknown")
  let severityJ ← pyGet analysis "severity" (Json.str "normal")
  let emoji :=
    if isStr severityJ "critical" then "🚨"
    else if isStr severityJ "important" then "⚠️"
    else if isStr severityJ "normal" then "📦"
    else if isStr severityJ "low" then "ℹ️"
    else "📦"
  let rt ← pyGet analysis "release_type" (Json.str "Unknown")
  let sevTitle ← pyTitleJ severityJ
  let summary ← pyGet analysis "summary" (Json.str "No summary available")
  let blocks0 : List Json :=
    [headerBlock (emoji ++ " Rancher " ++ pyToString versionJ),
     .obj [("type", .str "section"),
           ("fields", .arr
             [.obj [("type", .str "mrkdwn"), ("text", .str ("*Type:* " ++ pyToString rt))],
              .obj [("type", .str "mrkdwn"), ("text", .str ("*Severity:* " ++ sevTitle))]])],
     sectionText ("*Summary:*\n" ++ pyToString summary),
     dividerBlock]
  let features ← pyGet analysis "new_features" (Json.arr [])
  let fBlocks ← if pyTruthy features then do
      let fs ← pySliceIter features 3
      let parts ← fs.enum.mapM (fun p => do
        let t ← pyIndex p.2 "title"
        let d ← pyGet p.2 "description" (Json.str "")
        Except.ok ("*" ++ toString (p.1 + 1) ++ ". " ++ pyToString t ++ "*\n" ++ pyToString d))
      Except.ok [sectionText ("*🎉 New Features:*\n" ++ String.intercalate "\n\n" parts)]
    else Except.ok []
  let bugs ← pyGet analysis "bug_fixes" (Json.arr [])
  let bl ← pyIter bugs
  let flagged ← bl.mapM (fun b => do
    let s ← pyGet b "severity" Json.null
    Except.ok (b, isStr s "critical" || isStr s "high"))
  let critical_bugs := (flagged.filter (fun p => p.2)).map (fun p => p.1)
  let bBlocks ← if critical_bugs.isEmpty then Except.ok []
    else do
      let parts ← (critical_bugs.take 3).mapM (fun b => do
        let i ← pyIndex b "issue"
        Except.ok ("• " ++ pyToString i))
      Except.ok [sectionText ("*🐛 Critical Bug Fixes:*\n" ++ String.intercalate "\n" parts)]
  let breaking ← pyGet analysis "breaking_changes" (Json.arr [])
  let brBlocks ← if pyTruthy breaking then do
      let bs ← pySliceIter breaking 2
      let parts ← bs.mapM (fun b => do
        let c ← pyIndex b "change"
        let im ← pyGet b "impact" (Json.str "N/A")
        Except.ok ("*" ++ pyToString c ++ "*\n_" ++ pyToString im ++ "_"))
      Except.ok [sectionText ("*⚠️ Breaking Changes:*\n" ++ String.intercalate "\n\n" parts)]
    else Except.ok []
  let security ← pyGet analysis "security_updates" (Json.arr [])
  let sBlocks ← if pyTruthy security then do
      let ss ← pySliceIter security 3
      let parts ← ss.mapM (fun s => do
        let sv ← pyGet s "severity" (Json.str "unknown")
        let svU ← pyUpperJ sv
        let d ← pyGet s "description" (Json.str "N/A")
        Except.ok ("• *" ++ svU ++ ":* " ++ pyToString d))
      Except.ok [sectionText ("*🔒 Security Updates:*\n" ++ String.intercalate "\n" parts)]
    else Except.ok []
  let actions ← pyGet analysis "recommended_actions" (Json.arr [])
  let aBlocks ← if pyTruthy actions then do
      let as3 ← pySliceIter actions 5
      let parts := as3.enum.map (fun p => toString (p.1 + 1) ++ ". " ++ pyToString p.2)
      Except.ok [sectionText ("*📋 Recommended Actions:*\n" ++ String.intercalate "\n" parts)]
    else Except.ok []
  let resources ← pyGet analysis "resources" (Json.obj [])
  let rBlocks ← if pyTruthy resources then do
      let errV ← pyGet resources "error" Json.null
      if pyTruthy errV then Except.ok []
      else do
        let docsV ← pyGet resources "documentation" (Json.arr [])
        let docs ← pySliceIter docsV 2
        let vidsV ← pyGet resources "videos" (Json.arr [])
        let vids ← pySliceIter vidsV 2
        let dLines ← docs.mapM (fun d => do
          let u ← pyIndex d "url"
          let t ← pyIndex d "title"
          Except.ok ("• <" ++ pyToString u ++ "|" ++ pyToString t ++ ">"))
        let vLines ← vids.mapM (fun v => do
          let u ← pyIndex v "url"
          let t ← pyIndex v "title"
          Except.ok ("• 🎥 <" ++ pyToString u ++ "|" ++ pyToString t ++ ">"))
        let allLines := dLines ++ vLines
        Except.ok (if allLines.isEmpty then []
          else [sectionText ("*📚 Resources:*\n" ++ String.intercalate "\n" allLines)])
    else Except.ok []
  Except.ok (.arr (blocks0 ++ fBlocks ++ bBlocks ++ brBlocks ++ sBlocks ++ aBlocks ++ rBlocks))

/-- Outcome of the chat_postMessage call. -/
inductive PostOutcome where
  | posted
  | raised (msg : String)

/-- SlackBot.notify_new_release.  The severity read, the channel selection
and the block rendering run before the try block, so their exceptions
propagate to the caller.  The post and the notification record sit inside
one try block: a post failure is caught (and nothing is recorded); on a
successful post the notification is recorded for the selected channel. -/
def notify_new_release (cfg : SlackConfig) (st : DbState) (version : String)
    (analysis : Json) (post : PostOutcome) : Except String DbState := do
  let severity ← pyGet analysis "severity" (Json.str "normal")
  let route := notifyRoute cfg severity
  let _blocks ← format_release_blocks
    (Json.obj [("version", .str version), ("analysis", analysis)]) true
  let _ := route.2.1 ++ " " ++ route.2.2 ++ ": Rancher " ++ version
  Except.ok (match post with
    | .raised _ => st
    | .posted => record_notification st version route.1)

/-! ## Pipeline orchestrator (src/main.py, monitor_and_process) -/

/-- The raw release payload as stored by store_release. -/
def releaseJson (r : Release) : Json :=
  .obj [("tag_name", .str r.tag_name), ("body", .str r.body),
        ("build_yaml", .str r.build_yaml), ("changelog", .str r.changelog)]

/-- Collaborator outcomes for one release: the two completion calls, the
two ticketing POSTs and the chat post. -/
structure RelOracle where
  genA : Except String String
  genR : Except String String
  jiraHttp : HttpOutcome
  snowHttp : HttpOutcome
  post : PostOutcome

/-- The per-release body of the monitor_and_process loop: analyze, store,
notify, and escalate when the severity is critical.  The returned option
carries the first uncaught exception; the state reflects every mutation
performed before that exception was raised (store_release has already
committed when a later step raises). -/
def process_release (icfg : IntegrationsConfig) (scfg : SlackConfig) (now : String)
    (st : DbState) (release : Release) (o : RelOracle) : DbState × Option String :=
  let version := release.tag_name
  let analysis := analyze_release release o.genA o.genR
  let st1 := store_release st version (releaseJson release) analysis 0
  match notify_new_release scfg st1 version analysis o.post with
  | .error e => (st1, some e)
  | .ok st2 =>
    match pyGet analysis "severity" Json.null with
    | .error e => (st2, some e)
    | .ok sev =>
      if isStr sev "critical" then
        match create_ticket icfg version analysis now o.jiraHttp o.snowHttp with
        | .error e => (st2, some e)
        | .ok _ => (st2, none)
      else (st2, none)

/-- main.monitor_and_process over a detected batch.  The whole for-loop sits
inside a single try block: releases are processed strictly one at a time in
batch order, and the first uncaught per-release exception ends the loop (the
handler logs, prints the traceback and posts a team alert), leaving every
later release of the batch unprocessed.  The returned option carries that
exception. -/
def monitor_and_process (icfg : IntegrationsConfig) (scfg : SlackConfig) (now : String) :
    List (Release × RelOracle) → DbState → DbState × Option String
  | [], st => (st, none)
  | (r, o) :: rest, st =>
    match process_release icfg scfg now st r o with
    | (st1, none) => monitor_and_process icfg scfg now rest st1
    | (st1, some e) => (st1, some e)

/-! ## Concrete fixtures used by witnesses and counterexamples -/

/-- A minimal release payload. -/
def relV1 : Release := ⟨"v1", "", "", ""⟩

/-- A second minimal release payload. -/
def relV2 : Release := ⟨"v2", "", "", ""⟩

/-- Slack channel fixture. -/
def slackFix : SlackConfig := ⟨"#rancher-critical", "#rancher-releases", "#team"⟩

/-- Integrations fixture with both ticketing systems enabled. -/
def integrationsFix : IntegrationsConfig :=
  ⟨⟨true, "https://jira.example", "bot@example", "token", "OPS"⟩,
   ⟨true, "example.service-now.com", "bot", "pw"⟩⟩

/-- The empty store. -/
def dbEmpty : DbState := ⟨[], []⟩

/-! ## Helper lemmas -/

/-- Every rendered parse-error message is non-empty. -/
theorem jerrStr_ne_empty (e : JErr) : jerrStr e ≠ "" := by
  cases e <;> decide

/-- String-equality test against a literal characterises the str constructor. -/
theorem isStr_true_iff (j : Json) (s : String) : isStr j s = true ↔ j = Json.str s := by
  cases j <;> simp [isStr]

/-- find? over the upsert shape of store_release: the fresh row wins. -/
theorem find?_filter_append (l : List ReleaseRecord) (v : String) (x : ReleaseRecord)
    (hx : (x.version == v) = true) :
    List.find? (fun r => r.version == v) ((l.filter (fun r => r.version != v)) ++ [x]) =
      some x := by
  induction l with
  | nil => simp [List.find?, hx]
  | cons a l ih =>
    by_cases ha : (a.version == v) = true
    · have hne : (a.version != v) = false := by simp [bne, ha]
      simp only [List.filter_cons, hne, Bool.false_eq_true, if_false, ih]
    · have hne : (a.version != v) = true := by simp [bne, ha]
      simp only [List.filter_cons, hne, if_true, List.cons_append, List.find?_cons, ha, ih]

/-- countP over the upsert shape of store_release: exactly one row for the
stored version. -/
theorem countP_filter_append (l : List ReleaseRecord) (v : String) (x : ReleaseRecord)
    (hx : (x.version == v) = true) :
    ((l.filter (fun r => r.version != v)) ++ [x]).countP (fun r => r.version == v) = 1 := by
  rw [List.countP_append]
  have h1 : (l.filter (fun r => r.version != v)).countP (fun r => r.version == v) = 0 := by
    rw [List.countP_eq_zero]
    intro a ha
    have h2 := (List.mem_filter.mp ha).2
    simp [bne] at h2
    simp [h2]
  rw [h1]
  simp [List.countP_cons, hx]

/-- Storing then reading the same version returns the fresh record. -/
theorem get_release_store_self (st : DbState) (v : String) (rd an : Json) (n : Nat) :
    get_release (store_release st v rd an n) v = some ⟨v, rd, an, n, n⟩ := by
  unfold get_release store_release
  exact find?_filter_append _ _ _ (by simp)

/-- get_release only reads the releases table. -/
theorem get_release_congr (st1 st2 : DbState) (v : String)
    (h : st1.releases = st2.releases) : get_release st1 v = get_release st2 v := by
  unfold get_release
  rw [h]

/-- Storing one version preserves the presence of every stored version. -/
theorem get_release_store_preserve (st : DbState) (v' v : String) (rd an : Json) (n : Nat)
    (h : (get_release st v').isSome = true) :
    (get_release (store_release st v rd an n) v').isSome = true := by
  by_cases hv : v' = v
  · subst hv
    rw [get_release_store_self]
    rfl
  · unfold get_release at h ⊢
    unfold store_release
    rw [List.find?_isSome] at h ⊢
    obtain ⟨x, hmem, hpx⟩ := h
    refine ⟨x, ?_, hpx⟩
    refine List.mem_append_left _ (List.mem_filter.mpr ⟨hmem, ?_⟩)
    have : x.version = v' := by simpa using hpx
    simp [bne, this, hv]

/-- Bind on a successful Except computation. -/
theorem exbind_ok {ε α β : Type} (a : α) (f : α → Except ε β) :
    (Except.ok a >>= f) = f a := rfl

/-- Bind on a failed Except computation. -/
theorem exbind_error {ε α β : Type} (e : ε) (f : α → Except ε β) :
    ((Except.error e : Except ε α) >>= f) = Except.error e := rfl

/-- pure is ok for Except. -/
theorem expure_eq {ε α : Type} (a : α) : (pure a : Except ε α) = Except.ok a := rfl

/-- notify_new_release never touches the releases table. -/
theorem notify_new_release_releases (cfg : SlackConfig) (st : DbState) (v : String)
    (a : Json) (post : PostOutcome) (st' : DbState)
    (h : notify_new_release cfg st v a post = .ok st') :
    st'.releases = st.releases := by
  unfold notify_new_release at h
  cases hsev : pyGet a "severity" (Json.str "normal") with
  | error e => rw [hsev, exbind_error] at h; exact absurd h (by simp)
  | ok sev =>
    rw [hsev, exbind_ok] at h
    cases hf : format_release_blocks (Json.obj [("version", .str v), ("analysis", a)]) true with
    | error e => rw [hf, exbind_error] at h; exact absurd h (by simp)
    | ok blocks =>
      rw [hf, exbind_ok] at h
      cases post with
      | raised m => simp at h; rw [← h]
      | posted => simp at h; rw [← h]; rfl

/-- Whatever happens after the store step, the releases table after
process_release is exactly the one produced by its store_release call. -/
theorem process_release_releases (icfg : IntegrationsConfig) (scfg : SlackConfig)
    (now : String) (st : DbState) (r : Release) (o : RelOracle) :
    (process_release icfg scfg now st r o).1.releases =
      (store_release st r.tag_name (releaseJson r)
        (analyze_release r o.genA o.genR) 0).releases := by
  unfold process_release
  cases hn : notify_new_release scfg
      (store_release st r.tag_name (releaseJson r) (analyze_release r o.genA o.genR) 0)
      r.tag_name (analyze_release r o.genA o.genR) o.post with
  | error e => simp [hn]
  | ok st2 =>
    have hre := notify_new_release_releases _ _ _ _ _ _ hn
    cases hsev : pyGet (analyze_release r o.genA o.genR) "severity" Json.null with
    | error e => simp [hn, hsev, hre]
    | ok sev =>
      by_cases hc : isStr sev "critical" = true
      · cases ht : create_ticket icfg r.tag_name (analyze_release r o.genA o.genR) now
            o.jiraHttp o.snowHttp with
        | error e => simp [hn, hsev, hc, ht, hre]
        | ok l => simp [hn, hsev, hc, ht, hre]
      · simp [hn, hsev, hc, hre]

/-- monitor_and_process preserves the presence of every stored version,
whatever the batch and the outcomes. -/
theorem monitor_preserve (icfg : IntegrationsConfig) (scfg : SlackConfig) (now : String)
    (batch : List (Release × RelOracle)) :
    ∀ (st : DbState) (v' : String), (get_release st v').isSome = true →
      (get_release (monitor_and_process icfg scfg now batch st).1 v').isSome = true := by
  induction batch with
  | nil => intro st v' h; simpa [monitor_and_process]
  | cons p rest ih =>
    intro st v' h
    obtain ⟨r, o⟩ := p
    have hrel := process_release_releases icfg scfg now st r o
    have h1 : (get_release (process_release icfg scfg now st r o).1 v').isSome = true := by
      rw [get_release_congr _ _ _ hrel]
      exact get_release_store_preserve st v' r.tag_name _ _ 0 h
    unfold monitor_and_process
    cases hp : process_release icfg scfg now st r o with
    | mk st1 d =>
      rw [hp] at h1
      cases d with
      | none => exact ih st1 v' h1
      | some e => exact h1

/-- After a clean per-release step, the version of that release is present. -/
theorem process_release_stores_self (icfg : IntegrationsConfig) (scfg : SlackConfig)
    (now : String) (st : DbState) (r : Release) (o : RelOracle) :
    (get_release (process_release icfg scfg now st r o).1 r.tag_name).isSome = true := by
  rw [get_release_congr _ _ _ (process_release_releases icfg scfg now st r o)]
  rw [get_release_store_self]
  rfl

/-! ## Claim theorems -/

/-- C4: for every prior store state and valid triple, storeRelease then
getRelease returns a record whose release_data and analysis equal the stored
input; a second storeRelease for the same version overwrites the record, and
the store then holds exactly one row for that version. -/
theorem claim4_store_roundtrip_upsert :
    ∀ (st : DbState) (v : String) (rd an rd2 an2 : Json) (n n2 : Nat),
      get_release (store_release st v rd an n) v = some ⟨v, rd, an, n, n⟩ ∧
      get_release (store_release (store_release st v rd an n) v rd2 an2 n2) v =
        some ⟨v, rd2, an2, n2, n2⟩ ∧
      ((store_release (store_release st v rd an n) v rd2 an2 n2).releases.countP
        (fun r => r.version == v)) = 1 := by
  intro st v rd an rd2 an2 n n2
  refine ⟨get_release_store_self st v rd an n,
    get_release_store_self _ v rd2 an2 n2, ?_⟩
  unfold store_release
  exact countP_filter_append _ _ _ (by simp)

/-- C7 counterexample: the ServiceNow urgency and impact tables give normal
and low the same code (the code the source comments call Low), so the
claimed normal-to-medium, low-to-low mapping with equivalent numeric codes
is false for the numeric-scale system. -/
theorem claim7_counterexample :
    get_snow_urgency "normal" = get_snow_urgency "low" ∧
    get_snow_impact "normal" = get_snow_impact "low" ∧
    get_snow_urgency "normal" = "3" ∧
    get_jira_priority "normal" = "Medium" ∧ get_jira_priority "low" = "Low" :=
  ⟨rfl, rfl, rfl, rfl, rfl⟩

/-- C7 amended: the Jira table maps critical, important, normal, low to
Highest, High, Medium, Low with default Medium; the ServiceNow urgency and
impact tables map them to 1, 2, 3, 3 with default 3, collapsing normal and
low onto the lowest code. -/
theorem claim7_severity_tables :
    (get_jira_priority "critical" = "Highest" ∧ get_jira_priority "important" = "High" ∧
     get_jira_priority "normal" = "Medium" ∧ get_jira_priority "low" = "Low") ∧
    (get_snow_urgency "critical" = "1" ∧ get_snow_urgency "important" = "2" ∧
     get_snow_urgency "normal" = "3" ∧ get_snow_urgency "low" = "3") ∧
    (get_snow_impact "critical" = "1" ∧ get_snow_impact "important" = "2" ∧
     get_snow_impact "normal" = "3" ∧ get_snow_impact "low" = "3") ∧
    (∀ s : String, s ≠ "critical" → s ≠ "important" → s ≠ "normal" → s ≠ "low" →
      get_jira_priority s = "Medium" ∧ get_snow_urgency s = "3" ∧ get_snow_impact s = "3") := by
  refine ⟨⟨rfl, rfl, rfl, rfl⟩, ⟨rfl, rfl, rfl, rfl⟩, ⟨rfl, rfl, rfl, rfl⟩, ?_⟩
  intro s h1 h2 h3 h4
  refine ⟨?_, ?_, ?_⟩ <;>
    simp [get_jira_priority, get_snow_urgency, get_snow_impact, h1, h2, h3, h4]

/-- C7 witness for the amended default rows. -/
theorem claim7_witness :
    get_jira_priority "weird" = "Medium" ∧ get_snow_urgency "weird" = "3" ∧
    get_snow_impact "weird" = "3" :=
  claim7_severity_tables.2.2.2 "weird" (by decide) (by decide) (by decide) (by decide)

/-- C6: notifyNewRelease partitions severities into two channels: critical
selects the dedicated critical channel, and important, normal, low or any
other severity value selects the shared releases channel; a successful post
records the notification on the selected channel. -/
theorem claim6_severity_channel_partition :
    ∀ cfg : SlackConfig,
      (notifyRoute cfg (Json.str "critical")).1 = cfg.channel_critical ∧
      (notifyRoute cfg (Json.str "important")).1 = cfg.channel_releases ∧
      (notifyRoute cfg (Json.str "normal")).1 = cfg.channel_releases ∧
      (notifyRoute cfg (Json.str "low")).1 = cfg.channel_releases ∧
      (∀ sev : Json, sev ≠ Json.str "critical" →
        (notifyRoute cfg sev).1 = cfg.channel_releases) ∧
      (∀ (st : DbState) (v : String) (analysis sev : Json) (blocks : Json),
        pyGet analysis "severity" (Json.str "normal") = .ok sev →
        format_release_blocks (Json.obj [("version", Json.str v), ("analysis", analysis)])
          true = .ok blocks →
        notify_new_release cfg st v analysis .posted =
          .ok (record_notification st v (notifyRoute cfg sev).1)) := by
  intro cfg
  refine ⟨rfl, rfl, rfl, rfl, ?_, ?_⟩
  · intro sev h
    have hc : isStr sev "critical" = false := by
      cases hb : isStr sev "critical"
      · rfl
      · exact absurd ((isStr_true_iff sev "critical").mp hb) h
    unfold notifyRoute
    rw [hc]
    simp only [Bool.false_eq_true, if_false]
    split <;> rfl
  · intro st v analysis sev blocks h1 h2
    unfold notify_new_release
    rw [h1, exbind_ok, h2, exbind_ok]

/-- C6 witness: an unrecognised severity value routes to the releases
channel, and a successful post for an empty analysis records on the normal
route. -/
theorem claim6_witness :
    (notifyRoute slackFix (Json.num 5)).1 = slackFix.channel_releases ∧
    notify_new_release slackFix dbEmpty "v1" (Json.obj []) .posted =
      .ok (record_notification dbEmpty "v1" (notifyRoute slackFix (Json.str "normal")).1) :=
  ⟨(claim6_severity_channel_partition slackFix).2.2.2.2.1 (Json.num 5) (by simp),
   (claim6_severity_channel_partition slackFix).2.2.2.2.2 dbEmpty "v1" (Json.obj [])
     (Json.str "normal") _ rfl rfl⟩

/-- C3: when at least one compared version is absent from the store,
compareVersions returns the error result whose message names every missing
version (each missing version occurs in the message), and the completion
service is not invoked (the invocation flag is false). -/
theorem claim3_compare_missing_names_all :
    ∀ (st : DbState) (v1 v2 : String) (gen : Except String String),
      get_release st v1 = none ∨ get_release st v2 = none →
      ∃ msg : String,
        compare_versions st v1 v2 gen =
          .ok (Json.obj [("error", Json.str msg),
                         ("summary", Json.str "Cannot compare - versions not in database")],
               false) ∧
        (get_release st v1 = none → ∃ p q, msg = p ++ v1 ++ q) ∧
        (get_release st v2 = none → ∃ p q, msg = p ++ v2 ++ q) := by
  intro st v1 v2 gen h
  cases h1 : get_release st v1 with
  | none =>
    cases h2 : get_release st v2 with
    | none =>
      refine ⟨"Version(s) not found: " ++ joinComma [v1, v2], ?_, ?_, ?_⟩
      · unfold compare_versions
        rw [h1, h2]
        rfl
      · intro _
        exact ⟨"Version(s) not found: ", ", " ++ v2,
          by simp [joinComma, String.append_assoc]⟩
      · intro _
        exact ⟨"Version(s) not found: " ++ v1 ++ ", ", "",
          by simp [joinComma, String.append_assoc]⟩
    | some r2 =>
      refine ⟨"Version(s) not found: " ++ joinComma [v1], ?_, ?_, ?_⟩
      · unfold compare_versions
        rw [h1, h2]
        rfl
      · intro _
        exact ⟨"Version(s) not found: ", "", by simp [joinComma]⟩
      · intro hc
        exact absurd hc (by simp)
  | some r1 =>
    cases h2 : get_release st v2 with
    | none =>
      refine ⟨"Version(s) not found: " ++ joinComma [v2], ?_, ?_, ?_⟩
      · unfold compare_versions
        rw [h1, h2]
        rfl
      · intro hc
        exact absurd hc (by simp)
      · intro _
        exact ⟨"Version(s) not found: ", "", by simp [joinComma]⟩
    | some r2 =>
      rcases h with hc | hc
      · rw [h1] at hc; exact absurd hc (by simp)
      · rw [h2] at hc; exact absurd hc (by simp)

/-- C3 witness: both versions absent from the empty store. -/
theorem claim3_witness :
    ∃ msg : String,
      compare_versions dbEmpty "vA" "vB" (.ok "resp") =
        .ok (Json.obj [("error", Json.str msg),
                       ("summary", Json.str "Cannot compare - versions not in database")],
             false) ∧
      (get_release dbEmpty "vA" = none → ∃ p q, msg = p ++ "vA" ++ q) ∧
      (get_release dbEmpty "vB" = none → ∃ p q, msg = p ++ "vB" ++ q) :=
  claim3_compare_missing_names_all dbEmpty "vA" "vB" (.ok "resp") (Or.inl rfl)

/-- On the parse fallback, the resource lookup always succeeds: the fallback
has an empty new_features list, so the seeding yields the literal general,
and everything after the completion call is inside the try block. -/
theorem find_resources_parse_fallback_ok (v m : String) (genR : Except String String) :
    ∃ r, find_resources v (parse_fallback m) genR = .ok r := by
  have hseed : seedFeatures (parse_fallback m) = .ok "general" := rfl
  unfold find_resources
  rw [hseed, exbind_ok]
  exact ⟨_, rfl⟩

/-- C1 counterexample: when the completion call itself fails, analyzeRelease
returns the error response whose severity is unknown, not normal, and whose
recommended_actions list is non-empty, contradicting the claimed canonical
fallback with all list fields empty and severity normal. -/
theorem claim1_counterexample :
    pyGet (analyze_release relV1 (.error "completion down") (.error "x"))
      "severity" Json.null = .ok (Json.str "unknown") ∧
    Json.str "unknown" ≠ Json.str "normal" ∧
    pyGet (analyze_release relV1 (.error "completion down") (.error "x"))
      "recommended_actions" Json.null =
      .ok (Json.arr [Json.str "Check logs for error details",
                     Json.str "Review release manually"]) ∧
    Json.arr [Json.str "Check logs for error details",
              Json.str "Review release manually"] ≠ Json.arr [] :=
  ⟨rfl, by simp, rfl, by simp⟩

/-- C1 amended: analyzeRelease is total (never raises) and has two distinct
fallbacks.  A completion-call failure returns the error response: severity
unknown, error set to the message, summary stating the failure, item lists
empty but recommended_actions non-empty.  An unrecoverable parse failure
returns the parse fallback with severity normal, error set to the original
parse message (non-empty), item lists empty, recommended_actions non-empty,
and a resources field attached. -/
theorem claim1_analyze_release_fallbacks :
    (∀ (r : Release) (e : String) (genR : Except String String),
      analyze_release r (.error e) genR = create_error_response r.tag_name e) ∧
    (∀ v e : String,
      pyGet (create_error_response v e) "severity" Json.null = .ok (.str "unknown") ∧
      pyGet (create_error_response v e) "error" Json.null = .ok (.str e) ∧
      pyGet (create_error_response v e) "summary" Json.null =
        .ok (.str "Analysis failed due to error") ∧
      pyGet (create_error_response v e) "new_features" Json.null = .ok (.arr []) ∧
      pyGet (create_error_response v e) "bug_fixes" Json.null = .ok (.arr [])) ∧
    (∀ (r : Release) (text : String) (genR : Except String String) (e e2 : JErr),
      json_loads (cleanup text) = .error e →
      json_loads (repair_text (cleanup text)) = .error e2 →
      ∃ rsrc : Json,
        analyze_release r (.ok text) genR =
          Json.obj (insertKV (parse_fallback_entries (jerrStr e)) "resources" rsrc) ∧
        pyGet (analyze_release r (.ok text) genR) "severity" Json.null =
          .ok (.str "normal") ∧
        pyGet (analyze_release r (.ok text) genR) "error" Json.null =
          .ok (.str (jerrStr e)) ∧
        jerrStr e ≠ "" ∧
        pyGet (analyze_release r (.ok text) genR) "summary" Json.null =
          .ok (.str "Failed to parse analysis. Please check logs.") ∧
        pyGet (analyze_release r (.ok text) genR) "new_features" Json.null =
          .ok (.arr [])) := by
  refine ⟨fun r e genR => rfl, fun v e => ⟨rfl, rfl, rfl, rfl, rfl⟩, ?_⟩
  intro r text genR e e2 h1 h2
  have hp : parse_json_response text = parse_fallback (jerrStr e) := by
    simp only [parse_json_response]
    rw [h1, h2]
  obtain ⟨rsrc0, hr⟩ := find_resources_parse_fallback_ok r.tag_name (jerrStr e) genR
  have ha : analyze_release r (.ok text) genR =
      Json.obj (insertKV (parse_fallback_entries (jerrStr e)) "resources" rsrc0) := by
    simp only [analyze_release]
    rw [hp, hr, exbind_ok]
    rfl
  refine ⟨rsrc0, ha, ?_, ?_, jerrStr_ne_empty e, ?_, ?_⟩ <;> rw [ha] <;> rfl

/-- C1 witness: concrete unparseable completion output. -/
theorem claim1_witness :
    ∃ rsrc : Json,
      analyze_release relV1 (.ok "oops") (.error "rd") =
        Json.obj (insertKV (parse_fallback_entries (jerrStr .expectingValue))
          "resources" rsrc) ∧
      pyGet (analyze_release relV1 (.ok "oops") (.error "rd")) "severity" Json.null =
        .ok (.str "normal") ∧
      pyGet (analyze_release relV1 (.ok "oops") (.error "rd")) "error" Json.null =
        .ok (.str (jerrStr .expectingValue)) ∧
      jerrStr JErr.expectingValue ≠ "" ∧
      pyGet (analyze_release relV1 (.ok "oops") (.error "rd")) "summary" Json.null =
        .ok (.str "Failed to parse analysis. Please check logs.") ∧
      pyGet (analyze_release relV1 (.ok "oops") (.error "rd")) "new_features" Json.null =
        .ok (.arr []) :=
  claim1_analyze_release_fallbacks.2.2 relV1 "oops" (.error "rd")
    .expectingValue .expectingValue rfl rfl

/-- When the last closing brace sits at index 0, the text starts with the
closing brace and has no later one. -/
theorem rfindBrace_some_zero (cs : List Char) (h : rfindBrace cs = some 0) :
    ∃ tl, cs = rCurly :: tl := by
  cases cs with
  | nil => simp [rfindBrace] at h
  | cons c tl =>
    cases htl : rfindBrace tl with
    | some j => rw [rfindBrace, htl] at h; simp at h
    | none =>
      rw [rfindBrace, htl] at h
      by_cases hc : (c == rCurly) = true
      · exact ⟨tl, by rw [(by simpa using hc : c = rCurly)]⟩
      · rw [Bool.not_eq_true] at hc
        rw [hc] at h
        simp at h

/-- C2: the repair-tolerant parser strips whitespace and fences and parses
directly when it can; on failure, when the cleaned text does not end with a
closing brace, the result is that of retrying on the text truncated at the
last closing brace (and the fallback when no brace exists); the concrete
trailing-garbage input parses to the object; and every input yields either
a parsed value or the fallback carrying the non-empty original error. -/
theorem claim2_parse_json_response_repair :
    (parse_json_response "\x7b\"a\":1\x7dTRAILING_GARBAGE" = Json.obj [("a", Json.num 1)]) ∧
    (∀ (s : String) (v : Json), json_loads (cleanup s) = .ok v → parse_json_response s = v) ∧
    (∀ (s : String) (e : JErr), json_loads (cleanup s) = .error e →
      endsWithBrace (cleanup s) = false →
      ((∀ i : Nat, rfindBrace (cleanup s).toList = some i →
        parse_json_response s =
          (match json_loads (String.mk ((cleanup s).toList.take (i + 1))) with
           | .ok v => v
           | .error _ => parse_fallback (jerrStr e))) ∧
       (rfindBrace (cleanup s).toList = none →
        parse_json_response s = parse_fallback (jerrStr e)))) ∧
    (∀ s : String,
      (∃ v, parse_json_response s = v ∧
        (json_loads (cleanup s) = .ok v ∨ json_loads (repair_text (cleanup s)) = .ok v)) ∨
      (∃ e : JErr, json_loads (cleanup s) = .error e ∧
        parse_json_response s = parse_fallback (jerrStr e) ∧ jerrStr e ≠ "" ∧
        pyGet (parse_json_response s) "error" Json.null = .ok (.str (jerrStr e)))) := by
  refine ⟨rfl, ?_, ?_, ?_⟩
  · intro s v h
    simp only [parse_json_response]
    rw [h]
  · intro s e h1 hend
    constructor
    · intro i hi
      by_cases hz : 0 < i
      · have hrt : repair_text (cleanup s) =
            String.mk ((cleanup s).toList.take (i + 1)) := by
          unfold repair_text
          rw [hend, hi]
          simp [hz]
        simp only [parse_json_response]
        rw [h1, hrt]
      · have hi0 : i = 0 := Nat.eq_zero_of_not_pos hz
        subst hi0
        have hrt : repair_text (cleanup s) = cleanup s := by
          unfold repair_text
          rw [hend, hi]
          simp
        obtain ⟨tl, htl⟩ := rfindBrace_some_zero _ hi
        have htake : (cleanup s).toList.take (0 + 1) = [rCurly] := by
          rw [htl]
          rfl
        rw [htake]
        have hone : json_loads (String.mk [rCurly]) = .error .expectingValue := rfl
        rw [hone]
        simp only [parse_json_response]
        rw [h1, hrt, h1]
    · intro hn
      have hrt : repair_text (cleanup s) = cleanup s := by
        unfold repair_text
        rw [hend, hn]
        rfl
      simp only [parse_json_response]
      rw [h1, hrt, h1]
  · intro s
    cases hj : json_loads (cleanup s) with
    | ok v =>
      refine Or.inl ⟨v, ?_, Or.inl rfl⟩
      simp only [parse_json_response]
      rw [hj]
    | error e =>
      cases hj2 : json_loads (repair_text (cleanup s)) with
      | ok v =>
        refine Or.inl ⟨v, ?_, Or.inr rfl⟩
        simp only [parse_json_response]
        rw [hj, hj2]
      | error e2 =>
        have hres : parse_json_response s = parse_fallback (jerrStr e) := by
          simp only [parse_json_response]
          rw [hj, hj2]
        refine Or.inr ⟨e, rfl, hres, jerrStr_ne_empty e, ?_⟩
        rw [hres]
        rfl

/-- C2 witness: the direct-parse path on a plain number and the truncation
path on the concrete trailing-garbage input. -/
theorem claim2_witness :
    parse_json_response "7" = Json.num 7 ∧
    parse_json_response "\x7b\"a\":1\x7dTRAILING_GARBAGE" =
      (match json_loads (String.mk
          ((cleanup "\x7b\"a\":1\x7dTRAILING_GARBAGE").toList.take (6 + 1))) with
       | .ok v => v
       | .error _ => parse_fallback (jerrStr .extraData)) :=
  ⟨claim2_parse_json_response_repair.2.1 "7" (Json.num 7) rfl,
   (claim2_parse_json_response_repair.2.2.1 "\x7b\"a\":1\x7dTRAILING_GARBAGE"
     .extraData rfl rfl).1 6 rfl⟩

/-- Joining string values succeeds and intercalates. -/
theorem pyJoin_strs (sep : String) (ss : List String) :
    pyJoin sep (ss.map Json.str) = .ok (String.intercalate sep ss) := by
  have h : (ss.map Json.str).mapM strItem = Except.ok ss := by
    induction ss with
    | nil => rfl
    | cons a l ih =>
      rw [List.map_cons, List.mapM_cons, ih]
      rfl
  unfold pyJoin
  rw [h]

/-- C8 counterexample: a malformed new_features entry makes findResources
raise, and an unparseable resource response makes it return the shared
analysis-shaped parse fallback, which is not the empty resource lists. -/
theorem claim8_counterexample :
    find_resources "v1" (Json.obj [("new_features", Json.arr [Json.num 5])]) (.ok "resp") =
      .error "AttributeError: object has no attribute get" ∧
    find_resources "v1" (Json.obj []) (.ok "not json") =
      .ok (parse_fallback (jerrStr .expectingValue)) ∧
    parse_fallback (jerrStr .expectingValue) ≠ resources_empty :=
  ⟨rfl, rfl, by simp [parse_fallback, parse_fallback_entries, resources_empty]⟩

/-- C8 amended: the prompt seeding uses at most the first 3 feature titles,
with the literal general exactly when the (sliced) feature list is empty; a
seeding failure on a malformed new_features value propagates out of
findResources (it is absorbed one level up, in analyzeRelease); once seeding
succeeds findResources never raises, and a completion-call failure yields
the empty resource lists, while an unparseable response yields the shared
parse fallback rather than the empty lists (shown by the counterexample). -/
theorem claim8_find_resources :
    (∀ (v : String) (a : Json) (g : Except String String) (e : String),
      seedFeatures a = .error e → find_resources v a g = .error e) ∧
    (∀ (v : String) (a : Json) (fs e2 : String),
      seedFeatures a = .ok fs → find_resources v a (.error e2) = .ok resources_empty) ∧
    (∀ (v : String) (a : Json) (fs t : String),
      seedFeatures a = .ok fs → ∃ r, find_resources v a (.ok t) = .ok r) ∧
    (∀ (kvs : List (String × Json)) (l : List Json) (ss : List String),
      dictGetD kvs "new_features" (Json.arr []) = Json.arr l →
      (l.take 3).mapM (fun f => pyGet f "title" (Json.str "")) = .ok (ss.map Json.str) →
      seedFeatures (Json.obj kvs) =
        .ok (if ss.isEmpty then "general" else String.intercalate ", " ss)) := by
  refine ⟨?_, ?_, ?_, ?_⟩
  · intro v a g e h
    unfold find_resources
    rw [h, exbind_error]
  · intro v a fs e2 h
    unfold find_resources
    rw [h, exbind_ok]
    rfl
  · intro v a fs t h
    unfold find_resources
    rw [h, exbind_ok]
    exact ⟨_, rfl⟩
  · intro kvs l ss h1 h2
    have hg : pyGet (Json.obj kvs) "new_features" (Json.arr []) = .ok (Json.arr l) := by
      simp only [pyGet]
      rw [h1]
    have hs : pySliceIter (Json.arr l) 3 = .ok (l.take 3) := rfl
    unfold seedFeatures
    rw [hg, exbind_ok, hs, exbind_ok, h2, exbind_ok]
    cases ss with
    | nil => rfl
    | cons a tl =>
      simp only [List.map_cons, List.isEmpty_cons, Bool.false_eq_true, if_false]
      rw [show (Json.str a :: tl.map Json.str) = ((a :: tl).map Json.str) from rfl,
        pyJoin_strs]

/-- C8 witness: four features seed only the first three titles, and a
completion failure after successful seeding returns the empty lists. -/
theorem claim8_witness :
    seedFeatures (Json.obj [("new_features", Json.arr
        [Json.obj [("title", Json.str "F1")], Json.obj [("title", Json.str "F2")],
         Json.obj [("title", Json.str "F3")], Json.obj [("title", Json.str "F4")]])]) =
      .ok (if List.isEmpty ["F1", "F2", "F3"] then "general"
           else String.intercalate ", " ["F1", "F2", "F3"]) ∧
    find_resources "v1" (Json.obj []) (.error "down") = .ok resources_empty :=
  ⟨claim8_find_resources.2.2.2
      [("new_features", Json.arr
        [Json.obj [("title", Json.str "F1")], Json.obj [("title", Json.str "F2")],
         Json.obj [("title", Json.str "F3")], Json.obj [("title", Json.str "F4")]])]
      [Json.obj [("title", Json.str "F1")], Json.obj [("title", Json.str "F2")],
       Json.obj [("title", Json.str "F3")], Json.obj [("title", Json.str "F4")]]
      ["F1", "F2", "F3"] rfl rfl,
   claim8_find_resources.2.1 "v1" (Json.obj []) "general" "down" rfl⟩

/-- C5 counterexample: a critical analysis whose feature entry has no title
makes the Jira payload phase raise, so zero ticket-create attempts happen
and the exception propagates out of createTicket (also preventing the
ServiceNow attempt), against the claimed exactly-two attempts and
non-propagation. -/
theorem claim5_counterexample :
    create_ticket integrationsFix "v1"
      (Json.obj [("severity", Json.str "critical"), ("new_features", Json.arr [Json.obj []])])
      "2026-10-12 00:00:00" (.netRaise "down") (.netRaise "down") =
      .error "KeyError: title" := rfl

/-- C5 amended: whenever both systems are enabled and both payload phases
succeed on the analysis, createTicket makes exactly two attempts, one Jira
then one ServiceNow, whatever the two HTTP outcomes are (a non-success
status or network exception in one system leaves the other attempt in
place), and no exception propagates.  A payload-phase failure (for example
a feature without a title) instead aborts with zero or one attempts, as the
counterexample shows. -/
theorem claim5_create_ticket_two_attempts :
    ∀ (jc : JiraConfig) (nc : SnowConfig) (v : String) (analysis : Json) (now : String)
      (pj ps : Json) (jh sh : HttpOutcome),
      jc.enabled = true → nc.enabled = true →
      jira_payload jc v analysis now = .ok pj →
      snow_payload nc v analysis now = .ok ps →
      create_ticket ⟨jc, nc⟩ v analysis now jh sh =
        .ok [⟨"jira", pj, jh⟩, ⟨"servicenow", ps, sh⟩] := by
  intro jc nc v analysis now pj ps jh sh hj hn hpj hps
  unfold create_ticket create_jira_ticket create_servicenow_ticket
  simp only [hj, hn, if_true, hpj, hps, exbind_ok]
  rfl

/-- C5 witness: a well-formed critical analysis with a failing Jira POST and
a ServiceNow network exception still produces both attempts. -/
theorem claim5_witness :
    ∃ pj ps : Json,
      jira_payload integrationsFix.jira "v1"
        (Json.obj [("severity", Json.str "critical")]) "t0" = .ok pj ∧
      snow_payload integrationsFix.servicenow "v1"
        (Json.obj [("severity", Json.str "critical")]) "t0" = .ok ps ∧
      create_ticket integrationsFix "v1" (Json.obj [("severity", Json.str "critical")]) "t0"
        (.resp 500 Json.null) (.netRaise "down") =
        .ok [⟨"jira", pj, .resp 500 Json.null⟩, ⟨"servicenow", ps, .netRaise "down"⟩] := by
  refine ⟨_, _, rfl, rfl, ?_⟩
  exact claim5_create_ticket_two_attempts integrationsFix.jira integrationsFix.servicenow
    "v1" (Json.obj [("severity", Json.str "critical")]) "t0" _ _
    (.resp 500 Json.null) (.netRaise "down") rfl rfl rfl rfl

/-- C10 counterexample: a feature entry without a title makes the block
rendering raise before the try block of notifyNewRelease, so the exception
propagates to the caller, against the claimed never-propagates. -/
theorem claim10_counterexample :
    notify_new_release slackFix dbEmpty "v1"
      (Json.obj [("new_features", Json.arr [Json.obj []])]) .posted =
      .error "KeyError: title" := rfl

/-- C10 amended: once the severity read and the block rendering succeed, a
raised chat post is caught, the state is returned unchanged (no notification
record), and a successful post appends exactly one record for the routed
channel; only exceptions raised before the try block (severity read or block
rendering, see the counterexample) propagate. -/
theorem claim10_notify_record_after_post :
    ∀ (cfg : SlackConfig) (st : DbState) (v : String) (analysis sev blocks : Json),
      pyGet analysis "severity" (Json.str "normal") = .ok sev →
      format_release_blocks (Json.obj [("version", Json.str v), ("analysis", analysis)])
        true = .ok blocks →
      (∀ m, notify_new_release cfg st v analysis (.raised m) = .ok st) ∧
      (notify_new_release cfg st v analysis .posted =
        .ok (record_notification st v (notifyRoute cfg sev).1)) ∧
      ((record_notification st v (notifyRoute cfg sev).1).notifications =
        st.notifications ++ [(v, (notifyRoute cfg sev).1)]) := by
  intro cfg st v analysis sev blocks h1 h2
  refine ⟨?_, ?_, rfl⟩
  · intro m
    unfold notify_new_release
    rw [h1, exbind_ok, h2, exbind_ok]
  · unfold notify_new_release
    rw [h1, exbind_ok, h2, exbind_ok]

/-- C10 witness: a failed post records nothing and returns cleanly; a
successful post records on the routed channel. -/
theorem claim10_witness :
    notify_new_release slackFix dbEmpty "v1" (Json.obj [("severity", Json.str "important")])
      (.raised "boom") = .ok dbEmpty ∧
    notify_new_release slackFix dbEmpty "v1" (Json.obj [("severity", Json.str "important")])
      .posted =
      .ok (record_notification dbEmpty "v1"
        (notifyRoute slackFix (Json.str "important")).1) := by
  have h := claim10_notify_record_after_post slackFix dbEmpty "v1"
    (Json.obj [("severity", Json.str "important")]) (Json.str "important") _ rfl rfl
  exact ⟨h.1 "boom", h.2.1⟩

/-- Oracle whose completion output parses but carries a feature without a
title, so the notification rendering raises. -/
def oracleBad : RelOracle :=
  ⟨.ok "\x7b\"severity\": \"normal\", \"new_features\": [\x7b\x7d]\x7d",
   .error "resources down", .netRaise "jira down", .netRaise "snow down", .posted⟩

/-- Oracle whose completion output is a well-formed normal-severity
analysis. -/
def oracleGood : RelOracle :=
  ⟨.ok "\x7b\"severity\": \"normal\"\x7d",
   .error "resources down", .netRaise "jira down", .netRaise "snow down", .posted⟩

/-- C9 counterexample: in a batch of two releases, an uncaught exception
from the Notification Router while processing the first release aborts the
run: the batch result carries the exception, the first release is stored,
and the second release is never processed (it is absent from the store). -/
theorem claim9_counterexample :
    (monitor_and_process integrationsFix slackFix "t0"
      [(relV1, oracleBad), (relV2, oracleGood)] dbEmpty).2.isSome = true ∧
    get_release (monitor_and_process integrationsFix slackFix "t0"
      [(relV1, oracleBad), (relV2, oracleGood)] dbEmpty).1 "v2" = none ∧
    (get_release (monitor_and_process integrationsFix slackFix "t0"
      [(relV1, oracleBad), (relV2, oracleGood)] dbEmpty).1 "v1").isSome = true :=
  ⟨rfl, rfl, rfl⟩

/-- C9 amended: the orchestrator processes the batch strictly one release at
a time in order: a clean per-release step continues with the next release,
an uncaught per-release exception stops the whole batch at that point with
the partial state (later releases are not processed), and when no step
raises, every release of the batch ends up stored. -/
theorem claim9_monitor_sequential :
    (∀ (icfg : IntegrationsConfig) (scfg : SlackConfig) (now : String)
       (st st1 : DbState) (r : Release) (o : RelOracle)
       (rest : List (Release × RelOracle)),
       process_release icfg scfg now st r o = (st1, none) →
       monitor_and_process icfg scfg now ((r, o) :: rest) st =
         monitor_and_process icfg scfg now rest st1) ∧
    (∀ (icfg : IntegrationsConfig) (scfg : SlackConfig) (now : String)
       (st st1 : DbState) (r : Release) (o : RelOracle)
       (rest : List (Release × RelOracle)) (e : String),
       process_release icfg scfg now st r o = (st1, some e) →
       monitor_and_process icfg scfg now ((r, o) :: rest) st = (st1, some e)) ∧
    (∀ (icfg : IntegrationsConfig) (scfg : SlackConfig) (now : String)
       (batch : List (Release × RelOracle)) (st : DbState),
       (monitor_and_process icfg scfg now batch st).2 = none →
       ∀ p ∈ batch,
         (get_release (monitor_and_process icfg scfg now batch st).1
           p.1.tag_name).isSome = true) := by
  refine ⟨?_, ?_, ?_⟩
  · intro icfg scfg now st st1 r o rest h
    conv_lhs => unfold monitor_and_process
    rw [h]
  · intro icfg scfg now st st1 r o rest e h
    conv_lhs => unfold monitor_and_process
    rw [h]
  · intro icfg scfg now batch
    induction batch with
    | nil => intro st h p hp; simp at hp
    | cons q rest ih =>
      intro st h p hp
      obtain ⟨r, o⟩ := q
      cases hpr : process_release icfg scfg now st r o with
      | mk st1 d =>
        cases d with
        | none =>
          have hstep : monitor_and_process icfg scfg now ((r, o) :: rest) st =
              monitor_and_process icfg scfg now rest st1 := by
            conv_lhs => unfold monitor_and_process
            rw [hpr]
          rw [hstep] at h ⊢
          rcases List.mem_cons.mp hp with hp1 | hp2
          · subst hp1
            have h1 : (get_release st1 r.tag_name).isSome = true := by
              have h2 := process_release_stores_self icfg scfg now st r o
              rw [hpr] at h2
              exact h2
            exact monitor_preserve icfg scfg now rest st1 r.tag_name h1
          · exact ih st1 h p hp2
        | some e =>
          have hstep : monitor_and_process icfg scfg now ((r, o) :: rest) st =
              (st1, some e) := by
            conv_lhs => unfold monitor_and_process
            rw [hpr]
          rw [hstep] at h
          simp at h

/-- C9 witness: a clean one-release batch completes and stores its
release. -/
theorem claim9_witness :
    (monitor_and_process integrationsFix slackFix "t0" [(relV1, oracleGood)] dbEmpty).2 =
      none ∧
    (get_release (monitor_and_process integrationsFix slackFix "t0"
      [(relV1, oracleGood)] dbEmpty).1 "v1").isSome = true :=
  ⟨rfl, claim9_monitor_sequential.2.2 integrationsFix slackFix "t0"
    [(relV1, oracleGood)] dbEmpty rfl (relV1, oracleGood) (by simp)⟩
